import Mathlib

/-!
Shallow embedding of the candidate screener (Backend.py, frontend.py).

LLM calls are modelled as environment-provided responses: each stage of the
batch pipeline receives an `Except String Json` that is the observable outcome
of `call_llm` followed by `json.loads` inside that stage's `try` block
(`.ok j` = the call returned text that parsed to `j`; `.error e` = the call
raised, or the parse raised, with `e` the Python `str(e)` of that exception).
The interactive frontend's `call_openai` can also return `None` when no API
key is configured, so its outcome type is `Except String (Option String)`,
and `json.loads` is passed as an explicit `parse` function.

JSON values are modelled with numbers as rationals (Python ints/floats from
`json.loads`). Prompt construction feeds only the LLM and is not modelled,
except where evaluating it can raise (the `.get` calls on lines 204-206 of
Backend.py, executed before the stage's `try`).
-/

namespace Screener

/-- A JSON value as produced by `json.loads`: `null`/`bool`/number/string/
list/dict, with dicts as ordered association lists. -/
inductive Json where
  | null
  | bool (b : Bool)
  | num (q : Rat)
  | str (s : String)
  | arr (elems : List Json)
  | obj (fields : List (String × Json))

/-- Lookup of a key in a parsed JSON dict (Python `dict` lookup; a dict
produced by `json.loads` has distinct keys, so the association lists
representing dicts are assumed duplicate-free and the first match is the
binding). -/
def lookupField (fields : List (String × Json)) (k : String) : Option Json :=
  (fields.find? (fun p => p.1 == k)).map (fun p => p.2)

/-- Python `fields.get(k, d)` on a dict known to be a dict. -/
def lookupD (fields : List (String × Json)) (k : String) (d : Json) : Json :=
  (lookupField fields k).getD d

/-- Model of `j.get k` on an arbitrary parsed value: `none` models the
`AttributeError` Python raises when `j` is not a dict. -/
def Json.getField : Json → String → Option Json
  | .obj fields, k => lookupField fields k
  | _, _ => none

/-- Whether the parsed value is a Python dict. -/
def Json.isObj : Json → Bool
  | .obj _ => true
  | _ => false

/-- Python truthiness of a value produced by `json.loads`. -/
def Json.truthy : Json → Bool
  | .null => false
  | .bool b => b
  | .num q => !(q == 0)
  | .str s => !(s == "")
  | .arr elems => !elems.isEmpty
  | .obj fields => !fields.isEmpty

/-- The Python type name of a parsed JSON value, as it appears in an
`AttributeError` message. -/
def Json.pyType : Json → String
  | .null => "NoneType"
  | .bool _ => "bool"
  | .num q => if q.den == 1 then "int" else "float"
  | .str _ => "str"
  | .arr _ => "list"
  | .obj _ => "dict"

/-- Model of `str(e)` of the `AttributeError` raised by `j.get(...)` on a non-dict. -/
def noGetAttrMsg (j : Json) : String :=
  "'" ++ j.pyType ++ "' object has no attribute 'get'"

mutual

/-- Python `repr` of a value produced by `json.loads` (used by f-string
rendering of containers; string-escape and float-formatting details of
CPython are abbreviated). -/
def pyRepr : Json → String
  | .null => "None"
  | .bool b => if b then "True" else "False"
  | .num q => if q.den == 1 then toString q.num else toString q
  | .str s => "'" ++ s ++ "'"
  | .arr elems => "[" ++ pyReprList elems ++ "]"
  | .obj fields => "\x7b" ++ pyReprFields fields ++ "\x7d"

/-- Python `repr` of the elements of a list, comma separated. -/
def pyReprList : List Json → String
  | [] => ""
  | [x] => pyRepr x
  | x :: xs => pyRepr x ++ ", " ++ pyReprList xs

/-- Python `repr` of the bindings of a dict, comma separated. -/
def pyReprFields : List (String × Json) → String
  | [] => ""
  | [(k, v)] => "'" ++ k ++ "': " ++ pyRepr v
  | (k, v) :: fs => "'" ++ k ++ "': " ++ pyRepr v ++ ", " ++ pyReprFields fs

end

/-- Python `str` of a parsed JSON value, as an f-string renders it. -/
def pyStr (j : Json) : String :=
  match j with
  | .str s => s
  | _ => pyRepr j

/-- Whether an `Except` is the success case. -/
def exceptIsOk {α : Type} : Except String α → Bool
  | .ok _ => true
  | .error _ => false

/-! ## Backend.py: the batch evaluation pipeline -/

/-- The module-global `evaluation_state` dictionary of Backend.py.
`critical_red_flags`, `follow_up_questions` and `conversation_history` hold
whatever JSON value is assigned to them (initially empty lists). -/
structure EvalState where
  candidate_name : String
  job_title : String
  job_requirements : String
  resume_text : String
  assignment_response : String
  interview_answers : List (String × String)
  resume_analysis : Option Json
  assignment_eval : Option Json
  interview_eval : Option Json
  overall_recommendation : Option Json
  confidence_level : Option Json
  final_reasoning : Option Json
  critical_red_flags : Json
  follow_up_questions : Json
  evaluation_path : List String
  conversation_history : Json

/-- Model of `initialize_evaluation_state`: resets the record to the given identity
fields, all result fields `None`, empty audit trail. -/
def initialize_evaluation_state (candidate_name job_title job_requirements
    resume_text assignment_response : String)
    (interview_answers : List (String × String)) : EvalState :=
  { candidate_name := candidate_name
    job_title := job_title
    job_requirements := job_requirements
    resume_text := resume_text
    assignment_response := assignment_response
    interview_answers := interview_answers
    resume_analysis := none
    assignment_eval := none
    interview_eval := none
    overall_recommendation := none
    confidence_level := none
    final_reasoning := none
    critical_red_flags := .arr []
    follow_up_questions := .arr []
    evaluation_path := []
    conversation_history := .arr [] }

/-- Model of `analyze_resume`: on a parsed response, stores it in `resume_analysis`
and appends the audit line; any exception from the call or the parse is
re-raised with the stage tag prepended. -/
def analyze_resume (llm : Except String Json) (st : EvalState) :
    Except String (Json × EvalState) :=
  match llm with
  | .ok analysis =>
      .ok (analysis,
        { st with resume_analysis := some analysis
                  evaluation_path := st.evaluation_path ++
                    ["Resume analyzed for fit with job requirements"] })
  | .error e => .error ("Resume Analysis Error: " ++ e)

/-- Model of `evaluate_assignment`: same shape as `analyze_resume`, writing
`assignment_eval`. -/
def evaluate_assignment (llm : Except String Json) (st : EvalState) :
    Except String (Json × EvalState) :=
  match llm with
  | .ok evaluation =>
      .ok (evaluation,
        { st with assignment_eval := some evaluation
                  evaluation_path := st.evaluation_path ++
                    ["Technical assignment evaluated for correctness and approach"] })
  | .error e => .error ("Assignment Evaluation Error: " ++ e)

/-- Model of `evaluate_interview`: same shape, writing `interview_eval`. -/
def evaluate_interview (llm : Except String Json) (st : EvalState) :
    Except String (Json × EvalState) :=
  match llm with
  | .ok evaluation =>
      .ok (evaluation,
        { st with interview_eval := some evaluation
                  evaluation_path := st.evaluation_path ++
                    ["Interview responses evaluated for communication and fit"] })
  | .error e => .error ("Interview Evaluation Error: " ++ e)

/-- Backend.py lines 204-206: `evaluation_state[f].get("score", 0) if
evaluation_state[f] else 0`. Returns the `AttributeError` message when the
stored value is truthy but not a dict (Python evaluates the condition first,
then calls `.get`); these lines run before the stage's `try`. -/
def scoreAttrError (o : Option Json) : Option String :=
  match o with
  | some j => if j.truthy && !j.isObj then some (noGetAttrMsg j) else none
  | none => none

/-- Model of `generate_final_recommendation`: the three score reads before the `try`
can raise an unwrapped `AttributeError`; inside the `try`, a call/parse
failure — or `.get` on a parsed non-dict — is wrapped with the stage tag.
On success the three derived fields and the two list fields are written from
the response with their defaults, and the audit line is appended. -/
def generate_final_recommendation (llm : Except String Json) (st : EvalState) :
    Except String (Json × EvalState) :=
  match scoreAttrError st.resume_analysis with
  | some msg => .error msg
  | none =>
  match scoreAttrError st.assignment_eval with
  | some msg => .error msg
  | none =>
  match scoreAttrError st.interview_eval with
  | some msg => .error msg
  | none =>
  match llm with
  | .error e => .error ("Final Recommendation Error: " ++ e)
  | .ok recommendation =>
    match recommendation with
    | .obj fields =>
        let recVal := lookupD fields "overall_recommendation" (.str "CONSIDER")
        let confVal := lookupD fields "confidence_level" (.num 50)
        let reasoning := lookupD fields "final_reasoning" (.str "")
        let redFlags := lookupD fields "critical_red_flags" (.arr [])
        let followUps := lookupD fields "follow_up_questions" (.arr [])
        .ok (.obj fields,
          { st with overall_recommendation := some recVal
                    confidence_level := some confVal
                    final_reasoning := some reasoning
                    critical_red_flags := redFlags
                    follow_up_questions := followUps
                    evaluation_path := st.evaluation_path ++
                      ["Final recommendation: " ++ pyStr recVal ++
                        " (Confidence: " ++ pyStr confVal ++ "%)"] })
    | other => .error ("Final Recommendation Error: " ++ noGetAttrMsg other)

/-- The four stage responses of one `screen_candidate` run, in the order the
stages would call the LLM. -/
structure LLMResponses where
  assignment : Except String Json
  interview : Except String Json
  resume : Except String Json
  final : Except String Json

/-- Model of `screen_candidate`: initializes the state then runs the four stages in
the fixed order assignment → interview → resume → final recommendation,
wrapping any stage exception as a `Screening Error`. The first component is
the function's return/raise; the second is the module-global
`evaluation_state` after the call (partial when a stage raised). -/
def screen_candidate (llm : LLMResponses) (candidate_name job_title
    job_requirements resume_text assignment_response : String)
    (interview_answers : List (String × String)) :
    Except String EvalState × EvalState :=
  let st0 := initialize_evaluation_state candidate_name job_title
    job_requirements resume_text assignment_response interview_answers
  match evaluate_assignment llm.assignment st0 with
  | .error e => (.error ("Screening Error: " ++ e), st0)
  | .ok (_, st1) =>
    match evaluate_interview llm.interview st1 with
    | .error e => (.error ("Screening Error: " ++ e), st1)
    | .ok (_, st2) =>
      match analyze_resume llm.resume st2 with
      | .error e => (.error ("Screening Error: " ++ e), st2)
      | .ok (_, st3) =>
        match generate_final_recommendation llm.final st3 with
        | .error e => (.error ("Screening Error: " ++ e), st3)
        | .ok (_, st4) => (.ok st4, st4)

/-- The stage response a given pipeline position reads. -/
def stageResponse (r : LLMResponses) : Fin 4 → Except String Json
  | 0 => r.assignment
  | 1 => r.interview
  | 2 => r.resume
  | 3 => r.final

/-- The stage tag each stage's `except` block prepends to the cause. -/
def stageErrorTag : Fin 4 → String
  | 0 => "Assignment Evaluation Error: "
  | 1 => "Interview Evaluation Error: "
  | 2 => "Resume Analysis Error: "
  | 3 => "Final Recommendation Error: "

/-- Whether a stage's result field has been written in a state. -/
def stageDone (st : EvalState) : Fin 4 → Bool
  | 0 => st.assignment_eval.isSome
  | 1 => st.interview_eval.isSome
  | 2 => st.resume_analysis.isSome
  | 3 => st.overall_recommendation.isSome

/-- Whether the three score reads before stage 4's `try` go through without
an `AttributeError`, given the first three responses. -/
def noScoreAttrError3 (r : LLMResponses) : Bool :=
  match r.assignment, r.interview, r.resume with
  | .ok a, .ok i, .ok rr =>
      (scoreAttrError (some rr)).isNone && (scoreAttrError (some a)).isNone &&
        (scoreAttrError (some i)).isNone
  | _, _, _ => true

/-- Whether a run of `screen_candidate` with these responses actually reaches
stage `k`'s LLM call: every earlier stage succeeded and, for the final stage,
the score reads before its `try` did not raise. -/
def llmCallMade (r : LLMResponses) : Fin 4 → Bool
  | 0 => true
  | 1 => exceptIsOk r.assignment
  | 2 => exceptIsOk r.assignment && exceptIsOk r.interview
  | 3 => exceptIsOk r.assignment && exceptIsOk r.interview &&
      exceptIsOk r.resume && noScoreAttrError3 r

/-! ## frontend.py: the interactive mock-interview session

`call_openai` outcomes are `Except String (Option String)`: `.error e` models
a raised exception, `.ok none` the `None` returned when no API key is
configured, `.ok (some t)` a completion text `t`. `json.loads` is passed as
an explicit `parse` function. -/

/-- A character Python `str.strip()` removes. -/
def isPyWhitespace (c : Char) : Bool :=
  c == ' ' || c == '\t' || c == '\n' || c == '\r' || c == '\x0b' || c == '\x0c'

/-- Python `s.strip()`: drop whitespace from both ends. -/
def pyStrip (s : String) : String :=
  String.mk
    (((s.toList.dropWhile isPyWhitespace).reverse.dropWhile isPyWhitespace).reverse)

/-- The code-fence cleanup applied to a completion before `json.loads`
(frontend.py lines 160-168 and 254-262): strip, drop a leading
'```json' or '```', drop a trailing '```', strip again. -/
def stripFences (s : String) : String :=
  let r := pyStrip s
  let r := if r.startsWith "```json" then r.drop 7 else r
  let r := if r.startsWith "```" then r.drop 3 else r
  let r := if r.endsWith "```" then r.dropRight 3 else r
  pyStrip r

/-- The fixed record `extract_resume_info` returns when the call or the parse
fails. -/
def fallback_resume_info : Json :=
  .obj [("name", .str "Candidate"), ("experience_years", .num 0),
    ("skills", .arr []), ("technologies", .arr []), ("companies", .arr []),
    ("roles", .arr []), ("education", .str ""), ("key_achievements", .arr []),
    ("summary", .str "Resume provided")]

/-- Model of `extract_resume_info`: parse the cleaned completion; on a raised call, a
`None` completion (`.strip()` raises), or a failed parse, warn and return the
fixed fallback record. The `[:2000]` resume truncation only feeds the prompt
and is not modelled. -/
def extract_resume_info (parse : String → Except String Json)
    (resp : Except String (Option String)) : Json :=
  match resp with
  | .ok (some text) =>
      match parse (stripFences text) with
      | .ok info => info
      | .error _ => fallback_resume_info
  | _ => fallback_resume_info

/-- The fixed question `generate_interview_question` returns on any failure. -/
def fallback_question : String :=
  "Tell me about your most recent project and what technologies you used."

/-- Model of `generate_interview_question`: returns the stripped completion; a raised
call, or a `None` completion (`.strip()` raises inside the `try`), yields the
fixed fallback question. -/
def generate_interview_question (resp : Except String (Option String)) : String :=
  match resp with
  | .ok (some q) => pyStrip q
  | _ => fallback_question

/-- The fixed evaluation `evaluate_answer` returns on any failure. -/
def fallback_evaluation : Json :=
  .obj [("score", .num 70), ("strengths", .arr [.str "Good effort"]),
    ("areas_for_improvement", .arr [.str "Provide more detail"]),
    ("feedback", .str "Your answer shows understanding.")]

/-- Model of `evaluate_answer`: parse the cleaned completion; any raised call, `None`
completion, or failed parse yields the fixed fallback evaluation. -/
def evaluate_answer (parse : String → Except String Json)
    (resp : Except String (Option String)) : Json :=
  match resp with
  | .ok (some text) =>
      match parse (stripFences text) with
      | .ok evaluation => evaluation
      | .error _ => fallback_evaluation
  | _ => fallback_evaluation

/-- The floor of a rational, via flooring integer division. -/
def ratFloor (q : Rat) : Int := Int.fdiv q.num (q.den : Int)

/-- Python `round(x, 1)` rounds half to even. `floor`, the fractional
part, then the tie-break on the parity of the floor. -/
def roundHalfEven (q : Rat) : Int :=
  let f := ratFloor q
  let frac := q - (f : Rat)
  if frac < 1/2 then f
  else if (1 : Rat)/2 < frac then f + 1
  else if f % 2 = 0 then f else f + 1

/-- Python `round(q, 1)` (on exact rationals; binary-float representation
effects are not modelled). -/
def pyRound1 (q : Rat) : Rat := (roundHalfEven (q * 10) : Rat) / 10

/-- Model of `e.get("score", 50)` as used in the sum of `calculate_final_score`:
`none` models the run crashing there — `AttributeError` when `e` is not a
dict, `TypeError` in `sum` when the stored score is not a number (Python
bools count as ints). -/
def scoreOrDefault (d : Rat) (e : Json) : Option Rat :=
  match e with
  | .obj fields =>
      match lookupField fields "score" with
      | some (.num q) => some q
      | some (.bool b) => some (if b then 1 else 0)
      | some _ => none
      | none => some d
  | _ => none

/-- Python `sum([e.get("score", 50) for e in evaluations])`: `none` when one
of the reads raises. -/
def sumScores : List Json → Option Rat
  | [] => some 0
  | e :: rest =>
      match scoreOrDefault 50 e, sumScores rest with
      | some q, some t => some (q + t)
      | _, _ => none

/-- Model of `calculate_final_score`: 0 for an empty list, otherwise the mean of the
per-entry `get("score", 50)` values rounded to one decimal. `none` models an
uncaught exception while summing. -/
def calculate_final_score (evaluations : List Json) : Option Rat :=
  if evaluations.isEmpty then some 0
  else
    match sumScores evaluations with
    | some total => some (pyRound1 (total / (evaluations.length : Rat)))
    | none => none

/-- A `{"type": "question", "content": q}` chat entry. -/
def chatQuestion (q : String) : Json :=
  .obj [("type", .str "question"), ("content", .str q)]

/-- A `{"type": "answer", "content": a}` chat entry. -/
def chatAnswer (a : String) : Json :=
  .obj [("type", .str "answer"), ("content", .str a)]

/-- A `{"type": "feedback", "content": c, "score": s}` chat entry. -/
def chatFeedback (c : String) (score : Json) : Json :=
  .obj [("type", .str "feedback"), ("content", .str c), ("score", score)]

/-- The per-browser-session `st.session_state` keys `main` initializes.
`asked_questions` holds whatever `current_question` was when appended (a
string, or Python `None`). -/
structure SessionState where
  interview_stage : String
  resume_text : Option String
  jd_text : Option String
  resume_info : Option Json
  start_from : Option String
  current_question : Option String
  question_count : Nat
  asked_questions : List (Option String)
  evaluations : List Json
  final_score : Option Rat
  chat_history : List Json

/-- Model of `', '.join(x)` for a value read out of a parsed evaluation: joins a list
of strings, the characters of a string, or the keys of a dict; `none` models
the `TypeError` on anything else (including a list with a non-string
element). -/
def strOnly : Json → Option String
  | .str s => some s
  | _ => none

def joinComma : Json → Option String
  | .arr elems => (elems.mapM strOnly).map (String.intercalate ", ")
  | .str s => some (String.intercalate ", " (s.toList.map String.singleton))
  | .obj fields => some (String.intercalate ", " (fields.map (fun p => p.1)))
  | _ => none

/-- The feedback f-string built after a submitted answer is evaluated
(frontend.py line 530); `none` models the uncaught exception when the
evaluation is not a dict or a join fails. -/
def feedback_text (evaluation : Json) : Option String :=
  match evaluation with
  | .obj fields => do
      let s ← joinComma (lookupD fields "strengths" (.arr []))
      let a ← joinComma (lookupD fields "areas_for_improvement" (.arr []))
      pure ("**Strengths:** " ++ s ++ "\n\n**Improvements:** " ++ a ++
        "\n\n**Feedback:** " ++ pyStr (lookupD fields "feedback" (.str "Good response")))
  | _ => none

/-- The block at the top of the `interviewing` branch (frontend.py lines
460-477): when no current question exists, generate one; a truthy (nonempty)
result becomes the current question, resets the count to 1 and is appended to
the transcript. -/
def interviewing_entry (genResp : Except String (Option String))
    (st : SessionState) : SessionState :=
  match st.current_question with
  | some _ => st
  | none =>
      let question := generate_interview_question genResp
      if question ≠ "" then
        { st with current_question := some question
                  question_count := 1
                  chat_history := st.chat_history ++ [chatQuestion question] }
      else st

/-- The skip-question handler (frontend.py lines 560-563): append the current
question to `asked_questions`, clear it, rerun. -/
def handle_skip (st : SessionState) : SessionState :=
  { st with asked_questions := st.asked_questions ++ [st.current_question]
            current_question := none }

/-- The submit-answer handler (frontend.py lines 512-558). A blank answer
(Python `answer.strip()` falsy) only shows a warning and changes nothing; a
nonempty answer is evaluated and the evaluation, the question and the two
chat entries are appended in order. The second component is `false` when the
run would die on an uncaught exception after the first three appends (the
mutations made before it persist in the session). The freshly rendered
"Next Question" button is not pressed in the same run. -/
def handle_submit (evalResp : Except String (Option String))
    (parse : String → Except String Json) (answer : String)
    (st : SessionState) : SessionState × Bool :=
  if pyStrip answer ≠ "" then
    let evaluation := evaluate_answer parse evalResp
    let st1 := { st with
      evaluations := st.evaluations ++ [evaluation]
      asked_questions := st.asked_questions ++ [st.current_question]
      chat_history := st.chat_history ++ [chatAnswer answer] }
    match evaluation with
    | .obj fields =>
        match feedback_text (.obj fields) with
        | some ft =>
            ({ st1 with chat_history := st1.chat_history ++
                [chatFeedback ft (lookupD fields "score" (.num 50))] }, true)
        | none => (st1, false)
    | _ => (st1, false)
  else (st, true)

/-! ## Auxiliary predicates and concrete inputs used in the statements -/

/-- An evaluation entry that is a dict carrying a numeric `score`. -/
def scoreField : Json → Option Rat
  | .obj fields =>
      match lookupField fields "score" with
      | some (.num q) => some q
      | _ => none
  | _ => none

/-- Whether a frontend call-plus-parse fails: the call raised, returned
`None`, or its cleaned completion does not parse. -/
def cleanParseFailed (parse : String → Except String Json)
    (resp : Except String (Option String)) : Bool :=
  match resp with
  | .ok (some t) => !(exceptIsOk (parse (stripFences t)))
  | _ => true

/-- Whether a frontend LLM call fails to produce a completion text. -/
def callFailed (resp : Except String (Option String)) : Bool :=
  match resp with
  | .ok (some _) => false
  | _ => true

/-- The `overall_recommendation` stored in the state a successful stage-4 run
returns, as a plain string. -/
def recommendationString (r : Except String (Json × EvalState)) : Option String :=
  match r with
  | .ok (_, st) =>
      match st.overall_recommendation with
      | some (.str s) => some s
      | _ => none
  | .error _ => none

/-- A parse oracle that always fails, as `json.loads` does on non-JSON. -/
def parseFail : String → Except String Json :=
  fun _ => .error "Expecting value: line 1 column 1 (char 0)"

/-- Four responses that all parse (the last to the JSON number 5, not a
dict). -/
def c1llm : LLMResponses :=
  { assignment := .ok (.obj [("score", .num 80)])
    interview := .ok (.obj [])
    resume := .ok (.obj [])
    final := .ok (.num 5) }

def c1fieldsA : List (String × Json) := [("score", .num 80)]

def c1fieldsI : List (String × Json) := [("score", .num 75)]

def c1fieldsR : List (String × Json) := [("score", .num 90)]

def c1fieldsF : List (String × Json) :=
  [("overall_recommendation", .str "HIRE"), ("confidence_level", .num 85)]

/-- Four responses that all parse to dicts. -/
def c1okllm : LLMResponses :=
  { assignment := .ok (.obj c1fieldsA)
    interview := .ok (.obj c1fieldsI)
    resume := .ok (.obj c1fieldsR)
    final := .ok (.obj c1fieldsF) }

/-- Responses whose first stage call fails. -/
def c2llm : LLMResponses :=
  { assignment := .error "LLM Error: boom"
    interview := .ok .null
    resume := .ok .null
    final := .ok .null }

/-- A stage-4 response whose `overall_recommendation` is none of the three
allowed literals. -/
def c3resp : Json := .obj [("overall_recommendation", .str "MAYBE")]

def c3fieldsW : List (String × Json) := [("overall_recommendation", .str "HIRE")]

def c3stW : EvalState := initialize_evaluation_state "n" "t" "q" "r" "s" []

/-- The state after a successful stage-4 run on `c3fieldsW`. -/
def c3stAfter : EvalState :=
  match generate_final_recommendation (.ok (.obj c3fieldsW)) c3stW with
  | .ok (_, st) => st
  | .error _ => c3stW

/-- A session in the `interviewing` stage with a current question. -/
def sessionW : SessionState :=
  { interview_stage := "interviewing"
    resume_text := some "resume"
    jd_text := none
    resume_info := some fallback_resume_info
    start_from := some "resume"
    current_question := some "Q1"
    question_count := 1
    asked_questions := []
    evaluations := []
    final_score := none
    chat_history := [chatQuestion "Q1"] }

/-! ## Helper lemmas -/

/-- An entry carrying a numeric score is read as that score by the
default-50 read. -/
theorem scoreOrDefault_of_scoreField (e : Json) (q : Rat)
    (h : scoreField e = some q) : scoreOrDefault 50 e = some q := by
  cases e with
  | obj fields =>
      simp only [scoreField] at h
      simp only [scoreOrDefault]
      cases hl : lookupField fields "score" with
      | none => rw [hl] at h; exact absurd h (by simp)
      | some v => rw [hl] at h; cases v <;> simp_all
  | null => exact absurd h (by simp [scoreField])
  | bool b => exact absurd h (by simp [scoreField])
  | num n => exact absurd h (by simp [scoreField])
  | str s => exact absurd h (by simp [scoreField])
  | arr elems => exact absurd h (by simp [scoreField])

/-- When every entry carries a numeric score, the sum read with default 50
is the sum of those scores. -/
theorem sumScores_of_forall (evals : List Json) (scores : List Rat)
    (h : List.Forall₂ (fun e q => scoreField e = some q) evals scores) :
    sumScores evals = some scores.sum := by
  induction h with
  | nil => rfl
  | cons he _ ih =>
      unfold sumScores
      rw [scoreOrDefault_of_scoreField _ _ he, ih]
      simp

/-- Replacing one entry by another with the same default-50 read leaves the
sum unchanged. -/
theorem sumScores_congr_one (pre post : List Json) (e e' : Json)
    (h : scoreOrDefault 50 e = scoreOrDefault 50 e') :
    sumScores (pre ++ e :: post) = sumScores (pre ++ e' :: post) := by
  induction pre with
  | nil => simp only [List.nil_append]; unfold sumScores; rw [h]
  | cons x xs ih => simp only [List.cons_append]; unfold sumScores; rw [ih]

/-- Shape of a successful final-recommendation stage: the response was a
parsed dict, the three analysis fields are untouched, and the derived fields
are the response's values with their defaults. -/
theorem gfr_ok_shape (llm : Except String Json) (st : EvalState)
    (out : Json × EvalState)
    (h : generate_final_recommendation llm st = .ok out) :
    ∃ fields, llm = .ok (.obj fields) ∧ out.1 = .obj fields ∧
      out.2.resume_analysis = st.resume_analysis ∧
      out.2.assignment_eval = st.assignment_eval ∧
      out.2.interview_eval = st.interview_eval ∧
      out.2.overall_recommendation =
        some (lookupD fields "overall_recommendation" (.str "CONSIDER")) ∧
      out.2.confidence_level =
        some (lookupD fields "confidence_level" (.num 50)) ∧
      out.2.final_reasoning = some (lookupD fields "final_reasoning" (.str "")) ∧
      out.2.evaluation_path = st.evaluation_path ++
        ["Final recommendation: " ++
          pyStr (lookupD fields "overall_recommendation" (.str "CONSIDER")) ++
          " (Confidence: " ++
          pyStr (lookupD fields "confidence_level" (.num 50)) ++ "%)"] := by
  unfold generate_final_recommendation at h
  split at h
  · exact absurd h (by simp)
  split at h
  · exact absurd h (by simp)
  split at h
  · exact absurd h (by simp)
  split at h
  · exact absurd h (by simp)
  split at h
  case _ fields =>
    refine ⟨fields, rfl, ?_⟩
    injection h with h'
    subst h'
    exact ⟨rfl, rfl, rfl, rfl, rfl, rfl, rfl, rfl⟩
  case _ other hne => exact absurd h (by simp)

/-! ## Claims -/

/-- C1 counterexample: all four stage responses parse as JSON (the final one
to the number 5), yet the run aborts at `recommendation.get` and the
evaluation path has 3 entries, not 4 — no completed record results. -/
theorem parseable_json_run_aborts :
    exceptIsOk c1llm.assignment = true ∧ exceptIsOk c1llm.interview = true ∧
    exceptIsOk c1llm.resume = true ∧ exceptIsOk c1llm.final = true ∧
    exceptIsOk (screen_candidate c1llm "n" "t" "q" "r" "s" []).1 = false ∧
    (screen_candidate c1llm "n" "t" "q" "r" "s" []).2.evaluation_path.length
      = 3 :=
  ⟨rfl, rfl, rfl, rfl, rfl, rfl⟩

/-- C1 (amended): when all four stage responses parse as JSON objects, the
run completes, returning the final state, whose evaluation path has exactly
4 entries in the fixed order: assignment evaluation, interview evaluation,
resume analysis, final recommendation. -/
theorem evaluation_path_four_stages (llm : LLMResponses)
    (fa fi fr ff : List (String × Json))
    (cn jt jr rt ar : String) (ia : List (String × String))
    (ha : llm.assignment = .ok (.obj fa)) (hi : llm.interview = .ok (.obj fi))
    (hr : llm.resume = .ok (.obj fr)) (hf : llm.final = .ok (.obj ff)) :
    (screen_candidate llm cn jt jr rt ar ia).1 =
      .ok (screen_candidate llm cn jt jr rt ar ia).2 ∧
    (screen_candidate llm cn jt jr rt ar ia).2.evaluation_path =
      ["Technical assignment evaluated for correctness and approach",
       "Interview responses evaluated for communication and fit",
       "Resume analyzed for fit with job requirements",
       "Final recommendation: " ++
         pyStr (lookupD ff "overall_recommendation" (.str "CONSIDER")) ++
         " (Confidence: " ++
         pyStr (lookupD ff "confidence_level" (.num 50)) ++ "%)"] := by
  obtain ⟨ra, ri, rr, rf⟩ := llm
  simp only at ha hi hr hf
  subst ha hi hr hf
  constructor <;>
    simp [screen_candidate, evaluate_assignment, evaluate_interview,
      analyze_resume, generate_final_recommendation, scoreAttrError,
      Json.truthy, Json.isObj, initialize_evaluation_state]

/-- Witness for the amended C1 at four concrete dict responses. -/
theorem evaluation_path_four_stages_witness :
    (screen_candidate c1okllm "n" "t" "q" "r" "s" []).1 =
      .ok (screen_candidate c1okllm "n" "t" "q" "r" "s" []).2 ∧
    (screen_candidate c1okllm "n" "t" "q" "r" "s" []).2.evaluation_path =
      ["Technical assignment evaluated for correctness and approach",
       "Interview responses evaluated for communication and fit",
       "Resume analyzed for fit with job requirements",
       "Final recommendation: " ++
         pyStr (lookupD c1fieldsF "overall_recommendation" (.str "CONSIDER")) ++
         " (Confidence: " ++
         pyStr (lookupD c1fieldsF "confidence_level" (.num 50)) ++ "%)"] :=
  evaluation_path_four_stages c1okllm c1fieldsA c1fieldsI c1fieldsR c1fieldsF
    "n" "t" "q" "r" "s" [] rfl rfl rfl rfl

/-- C2: when the run reaches stage `k`'s LLM call and that call (or its
parse) fails, `screen_candidate` raises a `Screening Error` that carries the
failing stage's tag, returns no partial record, the audit trail holds
exactly one line per stage completed before the failure, and no later
stage's result field is written. -/
theorem stage_failure_aborts (llm : LLMResponses) (k : Fin 4) (e : String)
    (cn jt jr rt ar : String) (ia : List (String × String))
    (hmade : llmCallMade llm k = true)
    (hfail : stageResponse llm k = .error e) :
    (screen_candidate llm cn jt jr rt ar ia).1 =
      .error ("Screening Error: " ++ (stageErrorTag k ++ e)) ∧
    (screen_candidate llm cn jt jr rt ar ia).2.evaluation_path.length =
      k.val ∧
    ∀ j : Fin 4, k ≤ j →
      stageDone (screen_candidate llm cn jt jr rt ar ia).2 j = false := by
  obtain ⟨ra, ri, rr, rf⟩ := llm
  fin_cases k
  · simp only [stageResponse] at hfail
    subst hfail
    refine ⟨rfl, rfl, ?_⟩
    intro j hj
    fin_cases j <;> rfl
  · simp only [llmCallMade] at hmade
    simp only [stageResponse] at hfail
    cases ra with
    | error e' => exact absurd hmade (by simp [exceptIsOk])
    | ok a =>
        subst hfail
        refine ⟨rfl, rfl, ?_⟩
        intro j hj
        fin_cases j
        · exact absurd hj (by decide)
        · rfl
        · rfl
        · rfl
  · simp only [llmCallMade, Bool.and_eq_true] at hmade
    obtain ⟨h1, h2⟩ := hmade
    simp only [stageResponse] at hfail
    cases ra with
    | error e' => exact absurd h1 (by simp [exceptIsOk])
    | ok a =>
    cases ri with
    | error e' => exact absurd h2 (by simp [exceptIsOk])
    | ok i =>
        subst hfail
        refine ⟨rfl, rfl, ?_⟩
        intro j hj
        fin_cases j
        · exact absurd hj (by decide)
        · exact absurd hj (by decide)
        · rfl
        · rfl
  · simp only [llmCallMade, Bool.and_eq_true] at hmade
    obtain ⟨⟨⟨h1, h2⟩, h3⟩, h4⟩ := hmade
    simp only [stageResponse] at hfail
    cases ra with
    | error e' => exact absurd h1 (by simp [exceptIsOk])
    | ok a =>
    cases ri with
    | error e' => exact absurd h2 (by simp [exceptIsOk])
    | ok i =>
    cases rr with
    | error e' => exact absurd h3 (by simp [exceptIsOk])
    | ok r3 =>
        subst hfail
        simp only [noScoreAttrError3, Bool.and_eq_true,
          Option.isNone_iff_eq_none] at h4
        obtain ⟨⟨hr3, hA⟩, hI⟩ := h4
        refine ⟨?_, ?_, ?_⟩
        · simp [screen_candidate, evaluate_assignment, evaluate_interview,
            analyze_resume, generate_final_recommendation,
            initialize_evaluation_state, stageErrorTag, hr3, hA, hI]
        · simp [screen_candidate, evaluate_assignment, evaluate_interview,
            analyze_resume, generate_final_recommendation,
            initialize_evaluation_state, hr3, hA, hI]
        · intro j hj
          fin_cases j
          · exact absurd hj (by decide)
          · exact absurd hj (by decide)
          · exact absurd hj (by decide)
          · simp [screen_candidate, evaluate_assignment, evaluate_interview,
              analyze_resume, generate_final_recommendation,
              initialize_evaluation_state, stageDone, hr3, hA, hI]

/-- Witness for C2: the assignment-stage call fails. -/
theorem stage_failure_aborts_witness :
    (screen_candidate c2llm "n" "t" "q" "r" "s" []).1 =
      .error ("Screening Error: " ++
        (stageErrorTag 0 ++ "LLM Error: boom")) ∧
    (screen_candidate c2llm "n" "t" "q" "r" "s" []).2.evaluation_path.length
      = 0 ∧
    stageDone (screen_candidate c2llm "n" "t" "q" "r" "s" []).2 3 = false := by
  have h := stage_failure_aborts c2llm 0 "LLM Error: boom"
    "n" "t" "q" "r" "s" [] rfl rfl
  exact ⟨h.1, h.2.1, h.2.2 3 (by decide)⟩

/-- C3 counterexample: the stage-4 response `{"overall_recommendation":
"MAYBE"}` parses as JSON, the stage succeeds, and the stored
`overall_recommendation` is `MAYBE` — none of HIRE/CONSIDER/REJECT. -/
theorem recommendation_unvalidated_cex :
    recommendationString
        (generate_final_recommendation (.ok c3resp)
          (initialize_evaluation_state "n" "t" "q" "r" "s" [])) =
      some "MAYBE" ∧
    "MAYBE" ≠ "HIRE" ∧ "MAYBE" ≠ "CONSIDER" ∧ "MAYBE" ≠ "REJECT" :=
  ⟨rfl, by decide, by decide, by decide⟩

/-- C3 (amended): after a successful `generate_final_recommendation`, the
record's `overall_recommendation` is the response's
`overall_recommendation` value taken verbatim, defaulting to `CONSIDER`
when the key is absent; it is not validated against the three literals. -/
theorem overall_recommendation_from_response (st : EvalState)
    (fields : List (String × Json)) (out : Json × EvalState)
    (h : generate_final_recommendation (.ok (.obj fields)) st = .ok out) :
    out.2.overall_recommendation =
      some (lookupD fields "overall_recommendation" (.str "CONSIDER")) := by
  obtain ⟨fields', hllm, _, _, _, _, hrec, _⟩ :=
    gfr_ok_shape (.ok (.obj fields)) st out h
  have hf : fields' = fields := by
    have := hllm.symm
    simpa using this
  rw [hrec, hf]

/-- Witness for the amended C3 at a response recommending HIRE. -/
theorem overall_recommendation_from_response_witness :
    c3stAfter.overall_recommendation =
      some (lookupD c3fieldsW "overall_recommendation" (.str "CONSIDER")) :=
  overall_recommendation_from_response c3stW c3fieldsW
    (.obj c3fieldsW, c3stAfter) rfl

/-- C4: `calculate_final_score` returns 0 on the empty list, and on a
non-empty list of evaluations each carrying a numeric score it returns the
arithmetic mean of those scores rounded to one decimal (Python `round`,
half to even); in particular `[{"score": 80}, {"score": 60}]` gives 70.0. -/
theorem calculate_final_score_mean (evals : List Json) (scores : List Rat)
    (hne : evals ≠ [])
    (hs : List.Forall₂ (fun e q => scoreField e = some q) evals scores) :
    calculate_final_score evals =
      some (pyRound1 (scores.sum / (evals.length : Rat))) ∧
    calculate_final_score [] = some 0 ∧
    calculate_final_score
      [.obj [("score", .num 80)], .obj [("score", .num 60)]] = some 70 := by
  refine ⟨?_, rfl, ?_⟩
  · unfold calculate_final_score
    rw [if_neg (by simpa using hne), sumScores_of_forall evals scores hs]
  · simp only [calculate_final_score, sumScores, scoreOrDefault, lookupField,
      List.find?, List.isEmpty, List.length]
    norm_num [pyRound1, roundHalfEven, ratFloor]

/-- Witness for C4 at the spec's own example. -/
theorem calculate_final_score_mean_witness :
    calculate_final_score
        [.obj [("score", .num 80)], .obj [("score", .num 60)]] =
      some (pyRound1 (([(80 : Rat), 60].sum) / (([Json.obj [("score", .num 80)],
        .obj [("score", .num 60)]].length : Nat) : Rat))) ∧
    calculate_final_score [] = some 0 ∧
    calculate_final_score
      [.obj [("score", .num 80)], .obj [("score", .num 60)]] = some 70 :=
  calculate_final_score_mean
    [.obj [("score", .num 80)], .obj [("score", .num 60)]] [80, 60]
    (by simp) (List.Forall₂.cons rfl (List.Forall₂.cons rfl List.Forall₂.nil))

/-- C8: after `initialize_evaluation_state` the six result fields are all
`None`; each stage's success writes exactly its own result field(s) and no
other stage's; a completed run has them all written; and an aborted run
never writes the final-stage fields. -/
theorem result_fields_stage_ownership :
    (∀ cn jt jr rt ar ia,
      (initialize_evaluation_state cn jt jr rt ar ia).resume_analysis = none ∧
      (initialize_evaluation_state cn jt jr rt ar ia).assignment_eval = none ∧
      (initialize_evaluation_state cn jt jr rt ar ia).interview_eval = none ∧
      (initialize_evaluation_state cn jt jr rt ar
        ia).overall_recommendation = none ∧
      (initialize_evaluation_state cn jt jr rt ar ia).confidence_level =
        none ∧
      (initialize_evaluation_state cn jt jr rt ar ia).final_reasoning =
        none) ∧
    (∀ resp st out, evaluate_assignment resp st = .ok out →
      out.2.resume_analysis = st.resume_analysis ∧
      out.2.interview_eval = st.interview_eval ∧
      out.2.overall_recommendation = st.overall_recommendation ∧
      out.2.confidence_level = st.confidence_level ∧
      out.2.final_reasoning = st.final_reasoning ∧
      out.2.assignment_eval = some out.1) ∧
    (∀ resp st out, evaluate_interview resp st = .ok out →
      out.2.resume_analysis = st.resume_analysis ∧
      out.2.assignment_eval = st.assignment_eval ∧
      out.2.overall_recommendation = st.overall_recommendation ∧
      out.2.confidence_level = st.confidence_level ∧
      out.2.final_reasoning = st.final_reasoning ∧
      out.2.interview_eval = some out.1) ∧
    (∀ resp st out, analyze_resume resp st = .ok out →
      out.2.assignment_eval = st.assignment_eval ∧
      out.2.interview_eval = st.interview_eval ∧
      out.2.overall_recommendation = st.overall_recommendation ∧
      out.2.confidence_level = st.confidence_level ∧
      out.2.final_reasoning = st.final_reasoning ∧
      out.2.resume_analysis = some out.1) ∧
    (∀ resp st out, generate_final_recommendation resp st = .ok out →
      out.2.resume_analysis = st.resume_analysis ∧
      out.2.assignment_eval = st.assignment_eval ∧
      out.2.interview_eval = st.interview_eval ∧
      out.2.overall_recommendation.isSome = true ∧
      out.2.confidence_level.isSome = true ∧
      out.2.final_reasoning.isSome = true) ∧
    (∀ llm cn jt jr rt ar ia st,
      (screen_candidate llm cn jt jr rt ar ia).1 = .ok st →
      st.resume_analysis.isSome = true ∧ st.assignment_eval.isSome = true ∧
      st.interview_eval.isSome = true ∧
      st.overall_recommendation.isSome = true ∧
      st.confidence_level.isSome = true ∧
      st.final_reasoning.isSome = true) ∧
    (∀ llm cn jt jr rt ar ia,
      exceptIsOk (screen_candidate llm cn jt jr rt ar ia).1 = false →
      (screen_candidate llm cn jt jr rt ar ia).2.overall_recommendation =
        none) := by
  refine ⟨?_, ?_, ?_, ?_, ?_, ?_, ?_⟩
  · intro cn jt jr rt ar ia
    exact ⟨rfl, rfl, rfl, rfl, rfl, rfl⟩
  · intro resp st out h
    cases resp with
    | error e => exact absurd h (by simp [evaluate_assignment])
    | ok v =>
        simp only [evaluate_assignment] at h
        injection h with h'
        subst h'
        exact ⟨rfl, rfl, rfl, rfl, rfl, rfl⟩
  · intro resp st out h
    cases resp with
    | error e => exact absurd h (by simp [evaluate_interview])
    | ok v =>
        simp only [evaluate_interview] at h
        injection h with h'
        subst h'
        exact ⟨rfl, rfl, rfl, rfl, rfl, rfl⟩
  · intro resp st out h
    cases resp with
    | error e => exact absurd h (by simp [analyze_resume])
    | ok v =>
        simp only [analyze_resume] at h
        injection h with h'
        subst h'
        exact ⟨rfl, rfl, rfl, rfl, rfl, rfl⟩
  · intro resp st out h
    obtain ⟨fields, _, _, hra, hae, hie, hrec, hconf, hreas, _⟩ :=
      gfr_ok_shape resp st out h
    exact ⟨hra, hae, hie, by rw [hrec]; rfl, by rw [hconf]; rfl,
      by rw [hreas]; rfl⟩
  · intro llm cn jt jr rt ar ia st h
    obtain ⟨ra, ri, rr, rf⟩ := llm
    cases ra with
    | error e => exact absurd h (by simp [screen_candidate, evaluate_assignment])
    | ok a =>
    cases ri with
    | error e =>
        exact absurd h (by simp [screen_candidate, evaluate_assignment,
          evaluate_interview])
    | ok i =>
    cases rr with
    | error e =>
        exact absurd h (by simp [screen_candidate, evaluate_assignment,
          evaluate_interview, analyze_resume])
    | ok r3 =>
        simp only [screen_candidate, evaluate_assignment, evaluate_interview,
          analyze_resume] at h
        split at h
        · exact absurd h (by simp)
        case _ j4 st4 heq =>
          simp only at h
          injection h with h'
          subst h'
          obtain ⟨fields, _, _, hra, hae, hie, hrec, hconf, hreas, _⟩ :=
            gfr_ok_shape _ _ _ heq
          dsimp only at hra hae hie hrec hconf hreas
          exact ⟨by rw [hra]; rfl, by rw [hae]; rfl, by rw [hie]; rfl,
            by rw [hrec]; rfl, by rw [hconf]; rfl, by rw [hreas]; rfl⟩
  · intro llm cn jt jr rt ar ia h
    obtain ⟨ra, ri, rr, rf⟩ := llm
    cases ra with
    | error e => rfl
    | ok a =>
    cases ri with
    | error e => rfl
    | ok i =>
    cases rr with
    | error e => rfl
    | ok r3 =>
        simp only [screen_candidate, evaluate_assignment, evaluate_interview,
          analyze_resume] at h ⊢
        split at h
        · rfl
        · simp [exceptIsOk] at h

/-- C9: an evaluation entry that lacks a `score` key contributes the default
50 to the mean: the final score is unchanged when such an entry is replaced
by one whose score is explicitly 50, and a single score-less evaluation
yields 50.0. -/
theorem missing_score_defaults_to_50 (pre post : List Json)
    (fields : List (String × Json))
    (hmiss : lookupField fields "score" = none) :
    calculate_final_score (pre ++ .obj fields :: post) =
      calculate_final_score (pre ++ .obj [("score", .num 50)] :: post) ∧
    calculate_final_score [.obj []] = some 50 := by
  constructor
  · have hsc : scoreOrDefault 50 (.obj fields) =
        scoreOrDefault 50 (.obj [("score", .num 50)]) := by
      simp only [scoreOrDefault]
      rw [hmiss]
      simp [lookupField]
    have hsum := sumScores_congr_one pre post (.obj fields)
      (.obj [("score", .num 50)]) hsc
    have hlen : (pre ++ Json.obj fields :: post).length =
        (pre ++ Json.obj [("score", .num 50)] :: post).length := by simp
    have he1 : (pre ++ Json.obj fields :: post).isEmpty = false := by
      cases pre <;> rfl
    have he2 : (pre ++ Json.obj [("score", .num 50)] :: post).isEmpty = false := by
      cases pre <;> rfl
    unfold calculate_final_score
    rw [hsum, hlen, he1, he2]
  · simp only [calculate_final_score, sumScores, scoreOrDefault, lookupField,
      List.find?, List.isEmpty, List.length]
    norm_num [pyRound1, roundHalfEven, ratFloor]

/-- Witness for C9 at a two-entry list whose second entry lacks a score. -/
theorem missing_score_defaults_to_50_witness :
    calculate_final_score [Json.obj [("score", .num 80)], .obj []] =
      calculate_final_score
        [Json.obj [("score", .num 80)], .obj [("score", .num 50)]] ∧
    calculate_final_score [.obj []] = some 50 :=
  missing_score_defaults_to_50 [.obj [("score", .num 80)]] [] [] rfl

/-- C5: when the resume-summary call raises, returns no completion, or its
cleaned completion fails to parse, `extract_resume_info` returns (never
raises) the fixed fallback record: name `Candidate`, zero experience years,
and empty skills/technologies/companies/roles/key_achievements lists. -/
theorem extract_resume_info_fallback (parse : String → Except String Json)
    (resp : Except String (Option String))
    (h : cleanParseFailed parse resp = true) :
    extract_resume_info parse resp = fallback_resume_info ∧
    fallback_resume_info.getField "name" = some (.str "Candidate") ∧
    fallback_resume_info.getField "experience_years" = some (.num 0) ∧
    fallback_resume_info.getField "skills" = some (.arr []) ∧
    fallback_resume_info.getField "technologies" = some (.arr []) ∧
    fallback_resume_info.getField "companies" = some (.arr []) ∧
    fallback_resume_info.getField "roles" = some (.arr []) ∧
    fallback_resume_info.getField "key_achievements" = some (.arr []) := by
  refine ⟨?_, rfl, rfl, rfl, rfl, rfl, rfl, rfl⟩
  cases resp with
  | error e => rfl
  | ok o =>
      cases o with
      | none => rfl
      | some t =>
          cases hp : parse (stripFences t) with
          | error e => simp [extract_resume_info, hp]
          | ok j =>
              simp only [cleanParseFailed, hp, exceptIsOk] at h
              exact absurd h (by simp)

/-- Witness for C5: a completion that is not JSON. -/
theorem extract_resume_info_fallback_witness :
    extract_resume_info parseFail (.ok (some "I cannot answer that.")) =
      fallback_resume_info ∧
    fallback_resume_info.getField "name" = some (.str "Candidate") ∧
    fallback_resume_info.getField "experience_years" = some (.num 0) ∧
    fallback_resume_info.getField "skills" = some (.arr []) ∧
    fallback_resume_info.getField "technologies" = some (.arr []) ∧
    fallback_resume_info.getField "companies" = some (.arr []) ∧
    fallback_resume_info.getField "roles" = some (.arr []) ∧
    fallback_resume_info.getField "key_achievements" = some (.arr []) :=
  extract_resume_info_fallback parseFail (.ok (some "I cannot answer that.")) rfl

/-- C6: every failed question-generation call yields the fixed fallback
question, and every failed answer-evaluation call or parse yields the fixed
fallback evaluation, whose score is 70; both functions are total (the
session is never aborted by these failures). -/
theorem interactive_fallbacks :
    (∀ resp, callFailed resp = true →
      generate_interview_question resp = fallback_question) ∧
    (∀ parse resp, cleanParseFailed parse resp = true →
      evaluate_answer parse resp = fallback_evaluation) ∧
    fallback_evaluation.getField "score" = some (.num 70) := by
  refine ⟨?_, ?_, rfl⟩
  · intro resp h
    cases resp with
    | error e => rfl
    | ok o =>
        cases o with
        | none => rfl
        | some t => exact absurd h (by simp [callFailed])
  · intro parse resp h
    cases resp with
    | error e => rfl
    | ok o =>
        cases o with
        | none => rfl
        | some t =>
            cases hp : parse (stripFences t) with
            | error e => simp [evaluate_answer, hp]
            | ok j =>
                simp only [cleanParseFailed, hp, exceptIsOk] at h
                exact absurd h (by simp)

/-- Witness for C6: a raised question call and an unparseable evaluation. -/
theorem interactive_fallbacks_witness :
    generate_interview_question (.error "OpenAI Error: boom") =
      fallback_question ∧
    evaluate_answer parseFail (.ok (some "great answer!")) =
      fallback_evaluation :=
  ⟨interactive_fallbacks.1 (.error "OpenAI Error: boom") rfl,
   interactive_fallbacks.2.1 parseFail (.ok (some "great answer!")) rfl⟩

/-- C7: skipping in the interviewing state with a current question appends
that question to `asked_questions`, leaves `evaluations` (and the
transcript) unchanged, discards the current question, and the rerun then
advances to the newly generated question; no evaluation entry is created. -/
theorem skip_question_frame (st : SessionState) (q : String)
    (genResp : Except String (Option String))
    (_hstage : st.interview_stage = "interviewing")
    (hq : st.current_question = some q) :
    (handle_skip st).asked_questions = st.asked_questions ++ [some q] ∧
    (handle_skip st).evaluations = st.evaluations ∧
    (handle_skip st).chat_history = st.chat_history ∧
    (handle_skip st).current_question = none ∧
    (generate_interview_question genResp ≠ "" →
      (interviewing_entry genResp (handle_skip st)).current_question =
        some (generate_interview_question genResp) ∧
      (interviewing_entry genResp (handle_skip st)).evaluations =
        st.evaluations ∧
      (interviewing_entry genResp (handle_skip st)).asked_questions =
        st.asked_questions ++ [some q]) := by
  refine ⟨by simp [handle_skip, hq], rfl, rfl, rfl, ?_⟩
  intro hgen
  unfold interviewing_entry handle_skip
  simp [hq, hgen]

/-- Witness for C7 at a concrete session. -/
theorem skip_question_frame_witness :
    (handle_skip sessionW).asked_questions =
      sessionW.asked_questions ++ [some "Q1"] ∧
    (handle_skip sessionW).evaluations = sessionW.evaluations ∧
    (handle_skip sessionW).chat_history = sessionW.chat_history ∧
    (handle_skip sessionW).current_question = none ∧
    (generate_interview_question (.ok (some "Why Rust?")) ≠ "" →
      (interviewing_entry (.ok (some "Why Rust?"))
          (handle_skip sessionW)).current_question =
        some (generate_interview_question (.ok (some "Why Rust?"))) ∧
      (interviewing_entry (.ok (some "Why Rust?"))
          (handle_skip sessionW)).evaluations = sessionW.evaluations ∧
      (interviewing_entry (.ok (some "Why Rust?"))
          (handle_skip sessionW)).asked_questions =
        sessionW.asked_questions ++ [some "Q1"]) :=
  skip_question_frame sessionW "Q1" (.ok (some "Why Rust?")) rfl rfl

/-- C10: submitting a blank (empty or whitespace-only) answer changes
nothing: the handler returns the session state unchanged, for every possible
LLM outcome (so no LLM call is observable). -/
theorem blank_answer_no_change (evalResp : Except String (Option String))
    (parse : String → Except String Json) (answer : String)
    (st : SessionState) (h : pyStrip answer = "") :
    handle_submit evalResp parse answer st = (st, true) := by
  unfold handle_submit
  rw [h]
  simp

/-- Witness for C10 at a whitespace-only answer. -/
theorem blank_answer_no_change_witness :
    handle_submit (.ok (some "ignored")) parseFail "  \t " sessionW =
      (sessionW, true) :=
  blank_answer_no_change (.ok (some "ignored")) parseFail "  \t " sessionW
    (by decide)

end Screener
